import Mathlib

/-!
Verification development for the invoice PDF generator
(`src/pdf_generator.py`).  The core pipeline — font resolution
(`setup_fonts`), record location (`get_invoice_ids`, `get_invoice_data`)
and document composition (the `story` built inside `generate_pdf`) — is
shallowly embedded below; machine behaviour that the claims depend on
(Python dict lookup with defaults, `str` coercion, pandas column access,
exception raising) is made explicit.
-/

/-- Scalar cell values appearing in parsed sources: strings or integers
(the two scalar kinds the pipeline actually meets). -/
inductive Value where
  | s (v : String)
  | i (n : Int)
deriving DecidableEq, Repr

/-- Python `str(...)` coercion on a scalar value. -/
def Value.toStr : Value → String
  | .s v => v
  | .i n => toString n

/-- A parsed record: an insertion-ordered mapping from field name to scalar
value, modelled as an association list (Python `dict`). -/
abbrev Record := List (String × Value)

/-- Python `d.get(k)` returning `None` on absence: first binding of `k`. -/
def rget? (r : Record) (k : String) : Option Value :=
  (r.find? (fun p => p.1 == k)).map Prod.snd

/-- Python `d.get(k, default)`. -/
def rgetD (r : Record) (k : String) (d : Value) : Value :=
  (rget? r k).getD d

/-- A parsed tabular source (pandas `DataFrame`): the column list plus the
rows, each row a record over those columns. -/
structure DataFrame where
  cols : List String
  rows : List Record
deriving DecidableEq, Repr

/-- Well-formedness of a tabular source: every row carries exactly the
frame's columns, in order (pandas frames are rectangular). -/
def DataFrame.WF (df : DataFrame) : Prop :=
  ∀ r ∈ df.rows, r.map Prod.fst = df.cols

instance (df : DataFrame) : Decidable df.WF := by
  unfold DataFrame.WF; infer_instance

/-- Column extraction `df[c]` as the list of that column's cell values in
row order (a cell defaults to the empty string for a malformed row). -/
def DataFrame.col (df : DataFrame) (c : String) : List Value :=
  df.rows.map (fun r => rgetD r c (Value.s ""))

/-- The source shapes `get_invoice_ids` / `get_invoice_data` dispatch on:
a pandas frame, a dict (whose `invoices` entry, when present, is a list of
records — the only part of the dict the code reads), a bare list of
records, or anything else. -/
inductive Source where
  | frame (df : DataFrame)
  | dict (invoices : Option (List Record))
  | list (items : List Record)
  | other
deriving DecidableEq, Repr

/-- Result of a Python call: a returned value or a raised exception. -/
inductive PyResult (α : Type) where
  | ok (val : α)
  | exn
deriving DecidableEq, Repr

/-- Identifier resolution used by the hierarchical branches:
`str(inv.get('id', inv.get('invoice_id', '')))` — the `id` field first,
then `invoice_id`, then the empty string. -/
def resolvedId (inv : Record) : String :=
  (rgetD inv "id" (rgetD inv "invoice_id" (Value.s ""))).toStr

/-- Embedding of `PDFGenerator.get_invoice_ids` (src/pdf_generator.py
lines 91–103).  The `elif isinstance(data, list)` branch in the source is
nested under `elif isinstance(data, dict)` and is therefore unreachable:
a bare list of records falls through to `return []`. -/
def get_invoice_ids : Source → List String
  | .frame df =>
      if "invoice_id" ∈ df.cols then (df.col "invoice_id").map Value.toStr
      else if "id" ∈ df.cols then (df.col "id").map Value.toStr
      else []
  | .dict (some invs) => invs.map resolvedId
  | .dict none => []
  | .list _ => []
  | .other => []

/-- Embedding of `PDFGenerator.get_invoice_data` (src/pdf_generator.py
lines 105–125).  The frame branch filters on the stringified `invoice_id`
column when present and otherwise evaluates `data['id']`, which raises
`KeyError` when that column is missing too (`PyResult.exn`).  All
not-found paths return the empty dict (`PyResult.ok []`). -/
def get_invoice_data : Source → String → PyResult Record
  | .frame df, iid =>
      if "invoice_id" ∈ df.cols then
        match df.rows.filter
            (fun r => (rgetD r "invoice_id" (Value.s "")).toStr == iid) with
        | [] => .ok []
        | r :: _ => .ok r
      else if "id" ∈ df.cols then
        match df.rows.filter
            (fun r => (rgetD r "id" (Value.s "")).toStr == iid) with
        | [] => .ok []
        | r :: _ => .ok r
      else .exn
  | .dict (some invs), iid =>
      match invs.find? (fun inv => resolvedId inv == iid) with
      | some inv => .ok inv
      | none => .ok []
  | .dict none, _ => .ok []
  | .list items, iid =>
      match items.find? (fun item => resolvedId item == iid) with
      | some item => .ok item
      | none => .ok []
  | .other, _ => .ok []

/-- The not-found test the caller `run` performs on the locator's result
(src/pdf_generator.py line 301, `if not invoice_data:`): Python dict
truthiness, i.e. emptiness. -/
def run_treats_missing (r : Record) : Bool :=
  r.isEmpty

/-- The style fields the composer actually sets on each `ParagraphStyle`
(src/pdf_generator.py lines 136–161, 190–198): font name, size, space
after, alignment (0 left, 1 centre) and text colour. -/
structure PStyle where
  fontName : String
  fontSize : Nat
  spaceAfter : Nat
  alignment : Nat
  textColor : String
deriving DecidableEq, Repr

/-- `title_style` (lines 136–144): 24pt, centred, dark blue. -/
def title_style (font : String) : PStyle :=
  ⟨font, 24, 30, 1, "darkblue"⟩

/-- `heading_style` (lines 146–153): 16pt, dark blue, left aligned. -/
def heading_style (font : String) : PStyle :=
  ⟨font, 16, 12, 0, "darkblue"⟩

/-- `normal_style` (lines 155–161): 12pt, default colour and alignment. -/
def normal_style (font : String) : PStyle :=
  ⟨font, 12, 6, 0, "black"⟩

/-- `amount_style` (lines 190–198): 20pt, centred, dark red. -/
def amount_style (font : String) : PStyle :=
  ⟨font, 20, 20, 1, "darkred"⟩

/-- A layout block appended to the `story` list: a paragraph with its
style, a spacer, or the key-value table with its column widths and the
font its table style installs. -/
inductive Block where
  | para (text : Value) (style : PStyle)
  | spacer (width height : Nat)
  | table (rows : List (List Value)) (colWidths : List Nat) (fontName : String)
deriving DecidableEq, Repr

/-- Embedding of the `story` the composer builds inside
`PDFGenerator.generate_pdf` (src/pdf_generator.py lines 163–208), in
source order.  F-string interpolation applies `str` to the looked-up
value; the table and the description paragraph receive the raw value. -/
def story (font : String) (data : Record) : List Block :=
  [Block.para (Value.s "СЧЕТ-ФАКТУРА") (title_style font),
   Block.para (Value.s ("№ " ++ (rgetD data "invoice_id" (Value.s "N/A")).toStr))
     (normal_style font),
   Block.spacer 1 20,
   Block.table
     [[Value.s "Клиент:", rgetD data "customer_name" (Value.s "N/A")],
      [Value.s "Дата:", rgetD data "date" (Value.s "N/A")],
      [Value.s "Номер счета:", rgetD data "invoice_id" (Value.s "N/A")]]
     [100, 200] font,
   Block.spacer 1 20,
   Block.para
     (Value.s ("Сумма: " ++ (rgetD data "amount" (Value.s "N/A")).toStr ++ " ₽"))
     (amount_style font),
   Block.para (Value.s "Описание услуг:") (heading_style font),
   Block.para (rgetD data "description" (Value.s "N/A")) (normal_style font),
   Block.spacer 1 30,
   Block.para (Value.s "Спасибо за ваш заказ!") (normal_style font),
   Block.para (Value.s ("Дата создания: " ++ (rgetD data "date" (Value.s "N/A")).toStr))
     (normal_style font)]

/-- The title block is the unique 24pt dark-blue paragraph. -/
def isTitleBlock : Block → Bool
  | .para _ st => st.fontSize == 24 && st.textColor == "darkblue"
  | _ => false

/-- The key-value table block. -/
def isKeyValueTable : Block → Bool
  | .table _ _ _ => true
  | _ => false

/-- The emphasized amount line is the unique 20pt centred paragraph. -/
def isEmphasizedLine : Block → Bool
  | .para _ st => st.fontSize == 20 && st.alignment == 1
  | _ => false

/-- The candidate font files `setup_fonts` walks, in priority order
(src/pdf_generator.py lines 39–51), per platform. -/
def font_paths (isWindows : Bool) : List String :=
  if isWindows then
    ["C:/Windows/Fonts/arial.ttf",
     "C:/Windows/Fonts/calibri.ttf",
     "C:/Windows/Fonts/tahoma.ttf"]
  else
    ["/System/Library/Fonts/Arial.ttf",
     "/usr/share/fonts/truetype/dejavu/DejaVuSans.ttf"]

/-- The loop of `setup_fonts` (lines 53–60) over the candidate paths,
parameterised by the environment (`os.path.exists` and whether
`pdfmetrics.registerFont` succeeds): returns the path registered, if any.
A failed registration is swallowed by `except: continue`. -/
def setup_fonts_loop (pathExists registerOk : String → Bool) :
    List String → Option String
  | [] => none
  | p :: rest =>
      if pathExists p then
        if registerOk p then some p else setup_fonts_loop pathExists registerOk rest
      else setup_fonts_loop pathExists registerOk rest

/-- Embedding of `PDFGenerator.setup_fonts` (lines 34–65): the resolved
`font_name` — `CustomFont` when some candidate registered, else the
built-in `Helvetica` (also the outer `except` path). -/
def setup_fonts (pathExists registerOk : String → Bool)
    (paths : List String) : String :=
  match setup_fonts_loop pathExists registerOk paths with
  | some _ => "CustomFont"
  | none => "Helvetica"

/-- The scenario-A row, as parsed from the tabular source. -/
def scenarioA_row : Record :=
  [("invoice_id", Value.s "INV-1"), ("customer_name", Value.s "Acme"),
   ("date", Value.s "2024-01-01"), ("amount", Value.s "500"),
   ("description", Value.s "Consulting")]

/-- The scenario-A tabular source: the five columns and the single row. -/
def scenarioA_frame : DataFrame :=
  ⟨["invoice_id", "customer_name", "date", "amount", "description"],
   [scenarioA_row]⟩

/-- Recognized-shape invariant for a source: tabular sources are
rectangular; the other shapes carry no such obligation. -/
def Source.WFS : Source → Prop
  | .frame df => df.WF
  | _ => True

instance (src : Source) : Decidable src.WFS := by
  cases src with
  | frame df => exact inferInstanceAs (Decidable df.WF)
  | dict o => exact inferInstanceAs (Decidable True)
  | list items => exact inferInstanceAs (Decidable True)
  | other => exact inferInstanceAs (Decidable True)

/-- Every record of a hierarchical source is a non-empty mapping. -/
def Source.recordsNonEmpty : Source → Prop
  | .dict (some invs) => ∀ r ∈ invs, r ≠ []
  | .list items => ∀ r ∈ items, r ≠ []
  | _ => True

instance (src : Source) : Decidable src.recordsNonEmpty := by
  cases src with
  | frame df => exact inferInstanceAs (Decidable True)
  | dict o =>
      cases o with
      | none => exact inferInstanceAs (Decidable True)
      | some invs => exact inferInstanceAs (Decidable (∀ r ∈ invs, r ≠ []))
  | list items => exact inferInstanceAs (Decidable (∀ r ∈ items, r ≠ []))
  | other => exact inferInstanceAs (Decidable True)

/-- `find?` skips a prefix on which the predicate is everywhere false. -/
theorem find?_append_of_forall_not {α : Type} (p : α → Bool) :
    ∀ (l1 l2 : List α), (∀ x ∈ l1, ¬ p x) → (l1 ++ l2).find? p = l2.find? p
  | [], _, _ => rfl
  | a :: l1, l2, h => by
      rw [List.cons_append, List.find?_cons_of_neg _ (h a (List.mem_cons_self a l1))]
      exact find?_append_of_forall_not p l1 l2 (fun x hx => h x (List.mem_cons_of_mem a hx))

/-- When a frame's column contains a value stringifying to `s`, the row
filter used by `get_invoice_data` is non-empty and its head is a row of
the frame with all the frame's keys. -/
theorem frame_filter_head (df : DataFrame) (c s : String)
    (hwf : df.WF) (hc : c ∈ df.cols)
    (hs : s ∈ (df.col c).map Value.toStr) :
    ∃ a l, df.rows.filter (fun r => (rgetD r c (Value.s "")).toStr == s) = a :: l ∧
      a ∈ df.rows ∧ a ≠ [] := by
  simp only [DataFrame.col, List.map_map, List.mem_map, Function.comp] at hs
  obtain ⟨r0, hr0, hr0s⟩ := hs
  cases hfe : df.rows.filter (fun r => (rgetD r c (Value.s "")).toStr == s) with
  | nil =>
      rw [List.filter_eq_nil_iff] at hfe
      exact absurd (by simp [hr0s]) (hfe r0 hr0)
  | cons a l =>
      have ha : a ∈ df.rows := by
        have hmem : a ∈ df.rows.filter (fun r => (rgetD r c (Value.s "")).toStr == s) :=
          hfe ▸ List.mem_cons_self a l
        exact (List.mem_filter.mp hmem).1
      refine ⟨a, l, rfl, ha, ?_⟩
      intro hnil
      have hkeys := hwf a ha
      rw [hnil] at hkeys
      rw [← hkeys] at hc
      exact absurd hc (by simp)

/-- Claim C1: the claim states that a tabular source lacking both the
`invoice_id` and `id` columns makes `get_record` return NotFound without
raising; the code instead evaluates `data['id']` on such a frame and
raises `KeyError` — this theorem records the code's actual behaviour at
the failing inputs. -/
theorem C1_tabular_missing_columns_raises (df : DataFrame) (iid : String)
    (h1 : "invoice_id" ∉ df.cols) (h2 : "id" ∉ df.cols) :
    get_invoice_data (Source.frame df) iid = PyResult.exn := by
  simp [get_invoice_data, h1, h2]

/-- Concrete instance of the C1 divergence: a one-column frame without
identifier columns makes the lookup raise. -/
theorem C1_witness :
    get_invoice_data
      (Source.frame ⟨["customer_name"], [[("customer_name", Value.s "Acme")]]⟩)
      "INV-1" = PyResult.exn :=
  C1_tabular_missing_columns_raises _ "INV-1" (by decide) (by decide)

/-- Claim C2: the claim states that a bare sequence of records lists one
identifier per record; in the code the list-handling branch of
`get_invoice_ids` is nested under the dict check and unreachable, so a
bare sequence always yields the empty listing. -/
theorem C2_bare_list_listing_is_empty :
    (∀ items : List Record, get_invoice_ids (Source.list items) = []) ∧
    get_invoice_ids (Source.list [[("id", Value.s "X1")]]) ≠ ["X1"] := by
  exact ⟨fun _ => rfl, by decide⟩

/-- Claim C3: the claim states that `list_identifiers` and `get_record`
apply the same shape dispatch; for a bare list the listing is empty
(unrecognized) while the lookup still finds and returns a non-empty
record, so the two dispatches disagree. -/
theorem C3_dispatch_mismatch_on_bare_list :
    get_invoice_ids (Source.list [[("id", Value.s "X1")]]) = [] ∧
    get_invoice_data (Source.list [[("id", Value.s "X1")]]) "X1" =
      PyResult.ok [("id", Value.s "X1")] ∧
    [("id", Value.s "X1")] ≠ ([] : Record) := by
  refine ⟨rfl, rfl, by decide⟩

/-- Record carrying both candidate identifier fields, with distinct
values, used to exhibit the hierarchical precedence. -/
def recAB : Record := [("invoice_id", Value.s "A"), ("id", Value.s "B")]

/-- Claim C4, counterexample: on a hierarchical record carrying both
fields the code resolves the `id` value "B", not the `invoice_id` value
"A" — listing yields ["B"], and lookup by "A" is NotFound. -/
theorem C4_counterexample :
    get_invoice_ids (Source.dict (some [recAB])) = ["B"] ∧
    get_invoice_ids (Source.dict (some [recAB])) ≠ ["A"] ∧
    get_invoice_data (Source.dict (some [recAB])) "A" = PyResult.ok [] ∧
    get_invoice_data (Source.dict (some [recAB])) "B" = PyResult.ok recAB := by
  refine ⟨by decide, by decide, by decide, by decide⟩

/-- Claim C4, amended: for hierarchical records the resolved identifier
is the `id` field whenever it is present — also when `invoice_id` is
present too — and `invoice_id` is consulted only as the fallback; lookup
by the `id` value succeeds while lookup by a distinct `invoice_id` value
is NotFound. -/
theorem C4_amended_id_precedence (inv : Record) (v w : Value)
    (hv : rget? inv "id" = some v) (_hw : rget? inv "invoice_id" = some w) :
    resolvedId inv = v.toStr ∧
    get_invoice_ids (Source.dict (some [inv])) = [v.toStr] ∧
    get_invoice_data (Source.dict (some [inv])) v.toStr = PyResult.ok inv ∧
    (w.toStr ≠ v.toStr →
      get_invoice_data (Source.dict (some [inv])) w.toStr = PyResult.ok []) := by
  have hres : resolvedId inv = v.toStr := by
    simp [resolvedId, rgetD, hv]
  refine ⟨hres, ?_, ?_, ?_⟩
  · simp [get_invoice_ids, hres]
  · simp [get_invoice_data, List.find?_cons_of_pos, hres]
  · intro hne
    have hfalse : ¬ (v.toStr = w.toStr) := fun hcontra => hne hcontra.symm
    simp [get_invoice_data, hres, hfalse]

/-- Concrete instance of the amended C4 on `recAB`: `id` value "B" wins
over `invoice_id` value "A". -/
theorem C4_amended_witness :
    resolvedId recAB = (Value.s "B").toStr ∧
    get_invoice_ids (Source.dict (some [recAB])) = [(Value.s "B").toStr] ∧
    get_invoice_data (Source.dict (some [recAB])) (Value.s "B").toStr =
      PyResult.ok recAB ∧
    get_invoice_data (Source.dict (some [recAB])) (Value.s "A").toStr =
      PyResult.ok [] := by
  have h := C4_amended_id_precedence recAB (Value.s "B") (Value.s "A")
    (by decide) (by decide)
  exact ⟨h.1, h.2.1, h.2.2.1, h.2.2.2 (by decide)⟩

/-- Claim C5, counterexample: on the scenario-A source the lookup does
yield the expected normalized record, but composing it produces 11
layout blocks, not the 9 the claim states. -/
theorem C5_counterexample :
    get_invoice_data (Source.frame scenarioA_frame) "INV-1" =
      PyResult.ok scenarioA_row ∧
    (story "Helvetica" scenarioA_row).length ≠ 9 := by
  refine ⟨by decide, by decide⟩

/-- Claim C5, amended: requesting "INV-1" from the scenario-A tabular
source yields the normalized record with the five expected values, and
composing that record produces exactly 11 layout blocks (whatever font
was resolved). -/
theorem C5_scenarioA_eleven_blocks :
    get_invoice_data (Source.frame scenarioA_frame) "INV-1" =
      PyResult.ok scenarioA_row ∧
    rget? scenarioA_row "invoice_id" = some (Value.s "INV-1") ∧
    rget? scenarioA_row "customer_name" = some (Value.s "Acme") ∧
    rget? scenarioA_row "date" = some (Value.s "2024-01-01") ∧
    rget? scenarioA_row "amount" = some (Value.s "500") ∧
    rget? scenarioA_row "description" = some (Value.s "Consulting") ∧
    ∀ font, (story font scenarioA_row).length = 11 := by
  refine ⟨by decide, by decide, by decide, by decide, by decide, by decide,
    fun font => rfl⟩

/-- Claim C6: for every normalized record (composition being a total
function, it never raises) the story contains exactly one title block,
exactly one key-value table — which always has exactly 3 rows — and
exactly one emphasized amount line; each absent field is rendered as the
"N/A" placeholder rather than omitted. -/
theorem C6_compose_total_shape (font : String) (r : Record) :
    (story font r).countP isTitleBlock = 1 ∧
    (story font r).countP isKeyValueTable = 1 ∧
    (∀ rows w fn, Block.table rows w fn ∈ story font r → rows.length = 3) ∧
    (story font r).countP isEmphasizedLine = 1 ∧
    (rget? r "amount" = none →
      Block.para (Value.s "Сумма: N/A ₽") (amount_style font) ∈ story font r) ∧
    (rget? r "description" = none →
      Block.para (Value.s "N/A") (normal_style font) ∈ story font r) ∧
    (rget? r "invoice_id" = none →
      Block.para (Value.s "№ N/A") (normal_style font) ∈ story font r) ∧
    (rget? r "date" = none →
      Block.para (Value.s "Дата создания: N/A") (normal_style font) ∈ story font r) ∧
    (rget? r "customer_name" = none →
      ∃ rows, Block.table rows [100, 200] font ∈ story font r ∧
        [Value.s "Клиент:", Value.s "N/A"] ∈ rows) := by
  refine ⟨?_, ?_, ?_, ?_, ?_, ?_, ?_, ?_, ?_⟩
  · simp [story, isTitleBlock, title_style, heading_style, normal_style,
      amount_style, List.countP_cons]
  · simp [story, isKeyValueTable, List.countP_cons]
  · intro rows w fn hmem
    simp [story] at hmem
    obtain ⟨h1, -, -⟩ := hmem
    subst h1
    rfl
  · simp [story, isEmphasizedLine, title_style, heading_style, normal_style,
      amount_style, List.countP_cons]
  · intro h
    have e : rgetD r "amount" (Value.s "N/A") = Value.s "N/A" := by
      simp [rgetD, h]
    simp only [story, e, Value.toStr]
    exact List.Mem.tail _ (List.Mem.tail _ (List.Mem.tail _ (List.Mem.tail _
      (List.Mem.tail _ (List.Mem.head _)))))
  · intro h
    have e : rgetD r "description" (Value.s "N/A") = Value.s "N/A" := by
      simp [rgetD, h]
    simp only [story, e]
    exact List.Mem.tail _ (List.Mem.tail _ (List.Mem.tail _ (List.Mem.tail _
      (List.Mem.tail _ (List.Mem.tail _ (List.Mem.tail _ (List.Mem.head _)))))))
  · intro h
    have e : rgetD r "invoice_id" (Value.s "N/A") = Value.s "N/A" := by
      simp [rgetD, h]
    simp only [story, e, Value.toStr]
    exact List.Mem.tail _ (List.Mem.head _)
  · intro h
    have e : rgetD r "date" (Value.s "N/A") = Value.s "N/A" := by
      simp [rgetD, h]
    simp only [story, e, Value.toStr]
    exact List.Mem.tail _ (List.Mem.tail _ (List.Mem.tail _ (List.Mem.tail _
      (List.Mem.tail _ (List.Mem.tail _ (List.Mem.tail _ (List.Mem.tail _
      (List.Mem.tail _ (List.Mem.tail _ (List.Mem.head _))))))))))
  · intro h
    have e : rgetD r "customer_name" (Value.s "N/A") = Value.s "N/A" := by
      simp [rgetD, h]
    refine ⟨[[Value.s "Клиент:", Value.s "N/A"],
      [Value.s "Дата:", rgetD r "date" (Value.s "N/A")],
      [Value.s "Номер счета:", rgetD r "invoice_id" (Value.s "N/A")]], ?_, ?_⟩
    · simp only [story, e]
      exact List.Mem.tail _ (List.Mem.tail _ (List.Mem.tail _ (List.Mem.head _)))
    · exact List.Mem.head _

/-- Concrete instance of C6 on the empty record with the fallback font:
all three shape counts hold and the amount and description degrade to
the "N/A" placeholder. -/
theorem C6_witness :
    (story "Helvetica" []).countP isTitleBlock = 1 ∧
    (story "Helvetica" []).countP isKeyValueTable = 1 ∧
    (story "Helvetica" []).countP isEmphasizedLine = 1 ∧
    Block.para (Value.s "Сумма: N/A ₽") (amount_style "Helvetica") ∈
      story "Helvetica" [] ∧
    Block.para (Value.s "N/A") (normal_style "Helvetica") ∈
      story "Helvetica" [] := by
  have h := C6_compose_total_shape "Helvetica" []
  exact ⟨h.1, h.2.1, h.2.2.2.1, h.2.2.2.2.1 rfl, h.2.2.2.2.2.1 rfl⟩

/-- The `setup_fonts` loop selects exactly the first candidate path that
exists and registers, in list order. -/
theorem setup_fonts_loop_eq_find (pathExists registerOk : String → Bool) :
    ∀ paths : List String,
      setup_fonts_loop pathExists registerOk paths =
        paths.find? (fun p => pathExists p && registerOk p)
  | [] => rfl
  | p :: rest => by
      by_cases h1 : pathExists p
      · by_cases h2 : registerOk p
        · simp [setup_fonts_loop, h1, h2]
        · simp [setup_fonts_loop, h1, h2,
            setup_fonts_loop_eq_find pathExists registerOk rest]
      · simp [setup_fonts_loop, h1,
          setup_fonts_loop_eq_find pathExists registerOk rest]

/-- Claim C8: `setup_fonts` is total (never raises in the embedding),
resolves to `CustomFont` or `Helvetica` only, registers exactly the
first candidate path that exists and registers successfully in the fixed
priority order, and falls back to `Helvetica` when no candidate
registers. -/
theorem C8_font_fallback (pathExists registerOk : String → Bool)
    (isWindows : Bool) :
    (setup_fonts pathExists registerOk (font_paths isWindows) = "CustomFont" ∨
     setup_fonts pathExists registerOk (font_paths isWindows) = "Helvetica") ∧
    setup_fonts_loop pathExists registerOk (font_paths isWindows) =
      (font_paths isWindows).find? (fun p => pathExists p && registerOk p) ∧
    ((font_paths isWindows).find? (fun p => pathExists p && registerOk p) = none →
      setup_fonts pathExists registerOk (font_paths isWindows) = "Helvetica") ∧
    (∀ q, (font_paths isWindows).find? (fun p => pathExists p && registerOk p) =
        some q →
      setup_fonts pathExists registerOk (font_paths isWindows) = "CustomFont") := by
  have hloop := setup_fonts_loop_eq_find pathExists registerOk (font_paths isWindows)
  refine ⟨?_, hloop, ?_, ?_⟩
  · unfold setup_fonts
    cases setup_fonts_loop pathExists registerOk (font_paths isWindows) with
    | some q => exact Or.inl rfl
    | none => exact Or.inr rfl
  · intro hnone
    unfold setup_fonts
    rw [hloop, hnone]
  · intro q hq
    unfold setup_fonts
    rw [hloop, hq]

/-- Concrete instances of C8: with no path available the fallback
`Helvetica` is resolved; with every path available the first candidate
registers and `CustomFont` is resolved. -/
theorem C8_witness :
    setup_fonts (fun _ => false) (fun _ => true) (font_paths false) =
      "Helvetica" ∧
    setup_fonts (fun _ => true) (fun _ => true) (font_paths true) =
      "CustomFont" := by
  refine ⟨(C8_font_fallback (fun _ => false) (fun _ => true) false).2.2.1
    (by decide), ?_⟩
  exact (C8_font_fallback (fun _ => true) (fun _ => true) true).2.2.2
    "C:/Windows/Fonts/arial.ttf" (by decide)

/-- Claim C9, counterexample: the hierarchical source whose single record
is the empty mapping lists the identifier "", yet looking "" up returns
the empty dict — the very value that encodes NotFound and that the
caller treats as "not found". -/
theorem C9_counterexample :
    "" ∈ get_invoice_ids (Source.dict (some [[]])) ∧
    get_invoice_data (Source.dict (some [[]])) "" = PyResult.ok [] ∧
    run_treats_missing [] = true := by
  refine ⟨by decide, by decide, by decide⟩

/-- Claim C9, amended: for every well-formed source all of whose
hierarchical records are non-empty mappings, every identifier produced by
`get_invoice_ids` is retrievable — `get_invoice_data` returns a record
distinct from the empty NotFound value. -/
theorem C9_amended_roundtrip (src : Source) (hwf : src.WFS)
    (hne : src.recordsNonEmpty) :
    ∀ s ∈ get_invoice_ids src,
      ∃ r, get_invoice_data src s = PyResult.ok r ∧ r ≠ [] := by
  cases src with
  | frame df =>
      intro s hs
      have hwf' : df.WF := hwf
      by_cases h1 : "invoice_id" ∈ df.cols
      · rw [get_invoice_ids] at hs
        rw [if_pos h1] at hs
        obtain ⟨a, l, hfe, -, hane⟩ := frame_filter_head df "invoice_id" s hwf' h1 hs
        refine ⟨a, ?_, hane⟩
        rw [get_invoice_data, if_pos h1, hfe]
      · by_cases h2 : "id" ∈ df.cols
        · rw [get_invoice_ids, if_neg h1, if_pos h2] at hs
          obtain ⟨a, l, hfe, -, hane⟩ := frame_filter_head df "id" s hwf' h2 hs
          refine ⟨a, ?_, hane⟩
          rw [get_invoice_data, if_neg h1, if_pos h2, hfe]
        · rw [get_invoice_ids, if_neg h1, if_neg h2] at hs
          exact absurd hs (by simp)
  | dict o =>
      cases o with
      | none => intro s hs; exact absurd hs (by simp [get_invoice_ids])
      | some invs =>
          intro s hs
          rw [get_invoice_ids] at hs
          obtain ⟨inv0, hinv0, hres⟩ := List.mem_map.mp hs
          cases hfe : invs.find? (fun inv => resolvedId inv == s) with
          | none =>
              rw [List.find?_eq_none] at hfe
              exact absurd (by simp [hres]) (hfe inv0 hinv0)
          | some inv =>
              refine ⟨inv, ?_, hne inv (List.mem_of_find?_eq_some hfe)⟩
              rw [get_invoice_data, hfe]
  | list items => intro s hs; exact absurd hs (by simp [get_invoice_ids])
  | other => intro s hs; exact absurd hs (by simp [get_invoice_ids])

/-- Concrete instance of the amended C9 on a one-row tabular source. -/
theorem C9_witness :
    ∃ r, get_invoice_data
        (Source.frame ⟨["invoice_id"], [[("invoice_id", Value.s "A")]]⟩) "A" =
      PyResult.ok r ∧ r ≠ [] :=
  C9_amended_roundtrip
    (Source.frame ⟨["invoice_id"], [[("invoice_id", Value.s "A")]]⟩)
    (by decide) (by decide) "A" (by decide)

/-- Claim C10: `get_invoice_data` signals NotFound by returning the
empty dict, the caller tests the result only for emptiness, and a
hierarchical record that is itself an empty mapping — looked up by its
resolved identifier "" when no earlier record resolves to "" — returns
exactly that same empty value, which the caller treats as "not found". -/
theorem C10_empty_record_lookup_notfound (pre post : List Record)
    (hpre : ∀ r ∈ pre, resolvedId r ≠ "") :
    get_invoice_data (Source.dict (some (pre ++ [] :: post))) "" =
      PyResult.ok [] ∧
    run_treats_missing [] = true ∧
    ∀ (invs : List Record) (iid : String),
      (∀ r ∈ invs, resolvedId r ≠ iid) →
      get_invoice_data (Source.dict (some invs)) iid = PyResult.ok [] := by
  refine ⟨?_, rfl, ?_⟩
  · rw [get_invoice_data,
      find?_append_of_forall_not (fun inv => resolvedId inv == "") pre ([] :: post)
        (fun r hr => by simp [hpre r hr]),
      List.find?_cons_of_pos _ (by simp [resolvedId, rgetD, rget?, Value.toStr])]
  · intro invs iid hmiss
    rw [get_invoice_data, List.find?_eq_none.mpr (fun r hr => by simp [hmiss r hr])]

/-- Concrete instance of C10: in a two-record source whose second record
is empty, looking up "" returns the empty dict, exactly as a miss does,
and the caller's emptiness test reports "not found". -/
theorem C10_witness :
    get_invoice_data (Source.dict (some [[("id", Value.s "X")], []])) "" =
      PyResult.ok [] ∧
    run_treats_missing [] = true ∧
    get_invoice_data (Source.dict (some [[("id", Value.s "X")]])) "Y" =
      PyResult.ok [] := by
  have h := C10_empty_record_lookup_notfound [[("id", Value.s "X")]] []
    (by decide)
  exact ⟨h.1, h.2.1, h.2.2 [[("id", Value.s "X")]] "Y" (by decide)⟩
